import Mathlib

/-!
Verification of the gamehubz renderer core (renderer.js): the incremental
catalog merge engine (`appendNewGames`), the cache eviction sweep
(`cleanupCache`), the scan-timeout timer discipline (`setupProcessHandlers` /
`endScan`), the cover-image cache (`fetchGameImage` / `fetchImageWithRetry`),
the refresh-button scan guard (`setupRefresh` / `setScanningUI`), and the
render sort pipeline (`getSortName` / `sortAndRender`).

Each definition below is a shallow embedding of the correspondingly named
JavaScript function; JS strings are Lean `String`s, JS `undefined`-able fields
are `Option`s, and effectful interactions (filesystem stats, network fetches,
timers) are made explicit as parameters or state records.
-/

namespace GameHubz

/-- A catalog entry as handled by renderer.js: display `name` (always present
on scanner records), `platform` tag, and an optional store `appid` (absent for
plain-executable games, where JS code sees `undefined`). -/
structure Game where
  name : String
  platform : String
  appid : Option String
deriving DecidableEq, Repr

/-- Model of JS `String.prototype.toLowerCase`: per-character lowering, which
agrees with the JS function on the strings this code handles. Implemented
structurally over the character list so that it evaluates by kernel
reduction. -/
def toLowerStr (s : String) : String := String.mk (s.data.map Char.toLower)

/-- Model of JS `String.prototype.trim`: strip whitespace from both ends. -/
def trimStr (s : String) : String :=
  String.mk (((s.data.dropWhile Char.isWhitespace).reverse.dropWhile Char.isWhitespace).reverse)

/-- The `PLATFORM_ALIASES` table of renderer.js, mapping alias spellings to
canonical platform tags. -/
def PLATFORM_ALIASES : List (String × String) :=
  [("epicgames", "epic"), ("egs", "epic"),
   ("goggalaxy", "gog"), ("gog2", "gog"),
   ("eaapp", "ea"), ("origin", "ea"),
   ("uplay", "ubi"), ("ubisoft", "ubi"),
   ("msstore", "mstore"), ("microsoftstore", "mstore"), ("xbox", "mstore"),
   ("battlenet", "bnet"), ("blizzard", "bnet"),
   ("cig", "starcitizen"), ("sc", "starcitizen"),
   ("rstars", "rockstar"), ("rockstargames", "rockstar")]

/-- The `normalizePlatform` function of renderer.js:
`if (!p) return 'all'; const key = String(p).toLowerCase().trim();
return PLATFORM_ALIASES[key] || key;`. A falsy platform string is the empty
string. -/
def normalizePlatform (p : String) : String :=
  if p = "" then "all"
  else
    let key := trimStr (toLowerStr p)
    match PLATFORM_ALIASES.lookup key with
    | some v => v
    | none => key

/-- JS truthiness of the optional `appid` field: `undefined` and the empty
string are falsy, every other string is truthy. -/
def appidTruthy : Option String → Bool
  | some s => s ≠ ""
  | none => false

/-- The name+platform dedup key of `appendNewGames`:
`` `${g.name.toLowerCase()}_${g.platform}` ``. -/
def nameKey (g : Game) : String := toLowerStr g.name ++ "_" ++ g.platform

/-- Normalization applied to each incoming game in `appendNewGames`:
`{ ...g, platform: normalizePlatform(g.platform) }`. -/
def normalizeGame (g : Game) : Game := { g with platform := normalizePlatform g.platform }

/-- The `isDuplicateById` test of `appendNewGames`:
`g.appid && existingAppIds.has(g.appid)` where `existingAppIds` is the set of
`appid` values of the current collection. -/
def isDuplicateById (allGames : List Game) (g : Game) : Bool :=
  appidTruthy g.appid && allGames.any (fun e => e.appid == g.appid)

/-- The `isDuplicateByName` test of `appendNewGames`:
`existingNames.has(nameKey)` where `existingNames` is the set of name+platform
keys of the current collection. -/
def isDuplicateByName (allGames : List Game) (g : Game) : Bool :=
  allGames.any (fun e => nameKey e == nameKey g)

/-- The `uniqueGames` filter of `appendNewGames`: the incoming batch is
normalized and then filtered against the `existingAppIds` / `existingNames`
sets, both computed once from `allGames` before the filter runs (so candidates
are tested against a snapshot of the collection, not against a set that grows
as the batch is processed). -/
def uniqueGames (allGames batch : List Game) : List Game :=
  (batch.map normalizeGame).filter
    (fun g => !isDuplicateById allGames g && !isDuplicateByName allGames g)

/-- The `appendNewGames` function of renderer.js restricted to its data
effect: `allGames.push(...uniqueGames)`. An empty batch appends nothing, as in
the early return of the JS code. -/
def appendNewGames (allGames batch : List Game) : List Game :=
  allGames ++ uniqueGames allGames batch

/-- A parsed `PROGRESS:` protocol line, as consumed by the stdout handler in
`setupProcessHandlers`. -/
structure ProgressUnit where
  percentage : Nat
  platform : String
  games_found : Nat
  games : List Game
deriving Repr

/-- Observable effects of handling one valid progress unit: the updated
collection and the list of cover-image fetches issued while handling it. -/
structure ProgressEffects where
  newAllGames : List Game
  warmupRequests : List Game
deriving DecidableEq, Repr

/-- The per-unit branch of the stdout handler in `setupProcessHandlers`: if
`progressData.games && progressData.games.length > 0` it calls
`appendNewGames(progressData.games)`. Neither the handler nor `appendNewGames`
calls `fetchGameImage`; in renderer.js cover images are fetched only by the
render functions (`renderGames` / `renderGamesWithProgress`), after the scan,
so the list of image fetches issued during scan handling is empty. -/
def handleProgressUnit (allGames : List Game) (u : ProgressUnit) : ProgressEffects :=
  if u.games.length > 0 then
    { newAllGames := appendNewGames allGames u.games, warmupRequests := [] }
  else
    { newAllGames := allGames, warmupRequests := [] }

/-! Concrete entries used in counterexamples and witnesses. -/

def fooGame : Game := { name := "Foo", platform := "steam", appid := some "1" }

def barGame : Game := { name := "Bar", platform := "epic", appid := some "2" }

def fooUnit : ProgressUnit :=
  { percentage := 50, platform := "steam", games_found := 1, games := [fooGame] }

/-! Helper lemmas about the merge engine. -/

/-! The cache eviction sweep (`cleanupCache`). -/

/-- A cache-directory entry as seen by `cleanupCache`: file name, `mtime`
(the modification stamp used for oldest-first eviction ordering; renderer.js
bumps it with `utimesSync` on every cache hit) and size in bytes. -/
structure CFile where
  name : String
  mtime : Nat
  size : Nat
deriving DecidableEq, Repr

/-- The `MAX_FILES` constant of `cleanupCache`. -/
def MAX_FILES : Nat := 1000

/-- The byte limit of `cleanupCache`: `MAX_CACHE_SIZE_MB = 500` megabytes. -/
def MAX_CACHE_BYTES : Nat := 500 * 1024 * 1024

/-- The byte target of the eviction loop: 80% of the limit
(`MAX_CACHE_SIZE_MB * 0.8` megabytes); `currentSize / (1024*1024) <= 400`
on integer byte counts is exactly `currentSize ≤ 400 * 1024 * 1024`. -/
def TARGET_CACHE_BYTES : Nat := 400 * 1024 * 1024

/-- The `sort((a, b) => a.mtime - b.mtime)` step of `cleanupCache`: a stable
ascending sort on `mtime` (JS `Array.prototype.sort` is stable). -/
def sortByMtime (files : List CFile) : List CFile :=
  files.insertionSort (fun a b => a.mtime ≤ b.mtime)

/-- The total-size accumulation of `cleanupCache`. -/
def totalSize (files : List CFile) : Nat := (files.map CFile.size).sum

/-- The byte-budget deletion loop of `cleanupCache`: walk the files oldest
first; before each deletion, stop if the running size is within the 80%
target; otherwise delete the file and subtract its size. Returns the names of
the deleted files. -/
def byteLoop : List CFile → Nat → List String
  | [], _ => []
  | f :: rest, current =>
    if current ≤ TARGET_CACHE_BYTES then []
    else f.name :: byteLoop rest (current - f.size)

/-- The file-count pass of `cleanupCache`: if more than `MAX_FILES` files are
present, delete `fileStats.slice(0, 200)` — the 200 oldest files by mtime. -/
def countPass (files : List CFile) : List CFile :=
  if files.length > MAX_FILES then
    files.filter
      (fun f => !(((sortByMtime files).take 200).any (fun d => d.name == f.name)))
  else files

/-- The `cleanupCache` function of renderer.js. The directory listing is read
once (`readdirSync`). After the count pass, the total size is recomputed over
the surviving files (this accumulation wraps each `statSync` in try/catch, so
files deleted by the count pass are skipped). If the total exceeds the byte
limit, the byte pass calls `statSync` on every file of the original listing
with no per-file try/catch: when the count pass deleted files this throws on
the first deleted file and the function-level catch aborts the sweep, leaving
the directory as the count pass left it; otherwise the pass deletes
oldest-first until the running size is at most the 80% target. -/
def cleanupCache (files : List CFile) : List CFile :=
  if totalSize (countPass files) > MAX_CACHE_BYTES then
    if files.length > MAX_FILES then
      countPass files
    else
      (countPass files).filter
        (fun f =>
          !((byteLoop (sortByMtime (countPass files))
              (totalSize (countPass files))).contains f.name))
  else countPass files

/-- A one-byte cache file with name and mtime derived from an index; distinct
indices give distinct names. -/
def cexFile (i : Nat) : CFile :=
  { name := String.mk (List.replicate i 'a'), mtime := i, size := 1 }

/-- A directory of `n` one-byte files with ascending mtimes. -/
def cexDir (n : Nat) : List CFile := (List.range n).map cexFile

/-! The scan-timeout timer discipline (`setupProcessHandlers` / `endScan`). -/

/-- Timer bookkeeping of the scan supervisor: `scanTimer` is the module-level
variable holding the id of the most recently armed timeout (`null` when
cleared), `active` is the set of timers armed via `setTimeout` and neither
cleared nor fired, each with its duration in milliseconds, and `nextId` is a
fresh-id counter. -/
structure TimerState where
  scanTimer : Option Nat
  active : List (Nat × Nat)
  nextId : Nat
deriving DecidableEq, Repr

/-- The timer effect of `setupProcessHandlers` (run once per candidate
attempt): `scanTimer = setTimeout(..., 180000)` — a fresh 180000 ms timer is
armed and its id overwrites `scanTimer`, without any `clearTimeout` of the
timer the variable previously held. -/
def armScanTimeout (s : TimerState) : TimerState :=
  { scanTimer := some s.nextId,
    active := (s.nextId, 180000) :: s.active,
    nextId := s.nextId + 1 }

/-- The timer effect of `endScan`:
`if (scanTimer) { clearTimeout(scanTimer); scanTimer = null; }` — only the
timer currently referenced by `scanTimer` is cleared. -/
def endScanTimers (s : TimerState) : TimerState :=
  match s.scanTimer with
  | some t => { scanTimer := none, active := s.active.filter (fun p => p.1 ≠ t),
                nextId := s.nextId }
  | none => s

/-- The initial timer state: no timer armed. -/
def timers0 : TimerState := { scanTimer := none, active := [], nextId := 0 }

/-! The cover-image cache (`fetchGameImage` / `fetchImageWithRetry`). -/

/-- Outcome of one attempt of the `fetchImageWithRetry` loop body, seen from
its control flow: `ok` — the search hit, the grid lookup hit and the download
completed, so the loop returns the cache file path; `noResults` — no step
threw but no image was found (`j1.success` false, empty search results, or
empty grid results), so the loop breaks and returns the placeholder without
retrying; `err` — a lookup or the download threw (network error, bad JSON,
non-200 download), which is retried, or rethrown on the last attempt. -/
inductive AttemptOutcome
  | ok
  | noResults
  | err
deriving DecidableEq, Repr

/-- Result value of the image resolution: either the `pathToFileURL` of the
deterministic cache file, or the fixed local placeholder
(`getAssetPath('img/placeholder.png')`). -/
inductive ImgResult
  | cachedPath (p : String)
  | placeholder
deriving DecidableEq, Repr

/-- The retry loop of `fetchImageWithRetry`, with the network behaviour of
attempt `n` given by `oracle n`. `remaining` counts the attempts still
allowed after the current one (`maxRetries - attempt`); on `err` with no
attempt remaining the exception is rethrown (`Except.error`). A 1-second
backoff precedes each retry but has no effect on the returned value. -/
def fetchImageWithRetry (oracle : Nat → AttemptOutcome) (localPath : String) :
    Nat → Nat → Except Unit ImgResult
  | attempt, remaining =>
    match oracle attempt with
    | .ok => .ok (.cachedPath localPath)
    | .noResults => .ok .placeholder
    | .err =>
      match remaining with
      | 0 => .error ()
      | r + 1 => fetchImageWithRetry oracle localPath (attempt + 1) r

/-- JS string interpolation of an optional field: `undefined` prints as the
string `"undefined"`. -/
def optToJsString : Option String → String
  | some s => s
  | none => "undefined"

/-- The deterministic cache file name of `fetchGameImage`:
`` `${game.platform}_${game.appid}.jpg` ``. -/
def fileName (g : Game) : String :=
  g.platform ++ "_" ++ optToJsString g.appid ++ ".jpg"

/-- Observable outcome of one `fetchGameImage` call: the returned value, and
whether the cached file was deleted (`unlinkSync`), its timestamps bumped
(`utimesSync`), or a network fetch attempted. -/
structure FetchOutcome where
  result : ImgResult
  deletedCached : Bool
  touched : Bool
  fetchAttempted : Bool
deriving DecidableEq, Repr

/-- Size lookup of the cache directory: `existsSync` + `statSync().size`,
`none` when the file does not exist. -/
def lookupSize (cache : List (String × Nat)) (p : String) : Option Nat :=
  cache.lookup p

/-- The fetch phase of `fetchGameImage`: `Promise.race` of
`fetchImageWithRetry` (attempt 0, `maxRetries = 2`) against the timeout;
`timeoutWins` tells whether the timeout promise rejects first. Any rejection
is caught and turned into the placeholder. -/
def runFetch (timeoutWins : Bool) (oracle : Nat → AttemptOutcome)
    (localPath : String) (deleted : Bool) : FetchOutcome :=
  if timeoutWins then
    { result := .placeholder, deletedCached := deleted, touched := false,
      fetchAttempted := true }
  else
    match fetchImageWithRetry oracle localPath 0 2 with
    | .ok r => { result := r, deletedCached := deleted, touched := false,
                 fetchAttempted := true }
    | .error _ => { result := .placeholder, deletedCached := deleted,
                    touched := false, fetchAttempted := true }

/-- The `fetchGameImage` function of renderer.js. If the cache file exists:
on a `statSync` exception (`statThrows`) the file is deleted best-effort and
control falls through to the fetch; on a size above 1024 bytes the timestamps
are bumped (`utimesSync`) and the cached path returned with no network call;
on a size of at most 1024 bytes the file is deleted and control falls through
to the fetch. On a cache miss, control goes straight to the fetch; the fetch
phase never throws outward — errors and timeouts yield the placeholder. -/
def fetchGameImage (cache : List (String × Nat)) (statThrows timeoutWins : Bool)
    (oracle : Nat → AttemptOutcome) (g : Game) : FetchOutcome :=
  match lookupSize cache (fileName g) with
  | some size =>
    if statThrows then
      runFetch timeoutWins oracle (fileName g) true
    else if size > 1024 then
      { result := .cachedPath (fileName g), deletedCached := false,
        touched := true, fetchAttempted := false }
    else
      runFetch timeoutWins oracle (fileName g) true
  | none => runFetch timeoutWins oracle (fileName g) false

/-- Entries without a store id, as JS sees them (`appid` is `undefined`). -/
def fooNoId : Game := { name := "Foo", platform := "steam", appid := none }

def barNoId : Game := { name := "Bar", platform := "steam", appid := none }

/-! The refresh-button scan guard (`setupRefresh` / `setScanningUI`). -/

/-- UI-visible state of the renderer relevant to scan launches: the
`isScanning` flag, the `disabled` attribute of the refresh button, and the
live catalog (`allGames`). -/
structure UIState where
  isScanning : Bool
  refreshDisabled : Bool
  allGames : List Game
deriving DecidableEq, Repr

/-- The `setScanningUI(on)` function of renderer.js (state-relevant part):
`isScanning = on; btn.disabled = on`. -/
def setScanningUI (s : UIState) (flag : Bool) : UIState :=
  { s with isScanning := flag, refreshDisabled := flag }

/-- The body of the refresh button's `onclick` handler in `setupRefresh`,
restricted to its state effects: it performs no `isScanning` check, empties
`allGames` (`allGames.length = 0`), then calls `setScanningUI(true)` and
spawns the scanner. -/
def refreshOnClickHandler (s : UIState) : UIState :=
  setScanningUI { s with allGames := [] } true

/-- A physical click on the refresh button under DOM semantics: a disabled
button fires no click event, otherwise the `onclick` handler runs. -/
def clickRefreshButton (s : UIState) : UIState :=
  if s.refreshDisabled then s else refreshOnClickHandler s

/-- A UI state with a session active (mid-scan) and one catalog entry. -/
def busyUIState : UIState :=
  { isScanning := true, refreshDisabled := true, allGames := [fooGame] }

/-! The render sort pipeline (`getSortName` / `sortAndRender`). -/

/-- The article alternatives of the regex
`/^(the|a|an|le|la|les|l'|un|une|des)\s+/i` of `getSortName`, in alternation
order (the l-apostrophe article is built with `Char.ofNat 39`). -/
def ARTICLES : List String :=
  ["the", "a", "an", "le", "la", "les", String.mk ['l', Char.ofNat 39],
   "un", "une", "des"]

/-- Case-insensitive match of one article alternative at the start of the
input, followed by the mandatory `\s+`: on success returns the input with the
article and the whole greedy whitespace run removed, otherwise `none` (so the
regex engine backtracks to the next alternative). JS `\s` is modelled by
`Char.isWhitespace`. -/
def matchArticleAt : List Char → List Char → Option (List Char)
  | [], rest =>
    match rest with
    | c :: cs =>
      if c.isWhitespace then some (List.dropWhile Char.isWhitespace (c :: cs))
      else none
    | [] => none
  | _ :: _, [] => none
  | a :: arest, c :: cs =>
    if c.toLower = a then matchArticleAt arest cs else none

/-- The article-stripping `replace` of `getSortName`: the first alternative
(in regex alternation order) that matches at the start with a following
whitespace is removed; if none matches the name is unchanged. -/
def stripArticle (l : List Char) : List Char :=
  match ARTICLES.findSome? (fun art => matchArticleAt art.data l) with
  | some rest => rest
  | none => l

/-- The `replace(/[™®©]/g, '')` step of `getSortName` (the three symbols by
code point: 8482, 174, 169). -/
def removeSymbols (l : List Char) : List Char :=
  l.filter (fun c =>
    !(c == Char.ofNat 8482 || c == Char.ofNat 174 || c == Char.ofNat 169))

/-- The `replace(/\s+/g, ' ')` step of `getSortName`: every maximal
whitespace run becomes a single space. Implemented as a right fold (a
whitespace character in front of an already-collapsed space is absorbed),
which is structurally recursive and agrees with the run-by-run
replacement because every space in the folded suffix is itself a collapsed
run. -/
def collapseSpaces (l : List Char) : List Char :=
  l.foldr
    (fun c acc =>
      if c.isWhitespace then
        match acc with
        | d :: _ => if d = ' ' then acc else ' ' :: acc
        | [] => [' ']
      else c :: acc)
    []

/-- The `getSortName` function of renderer.js: strip a leading article (and
the following whitespace), remove trademark symbols, collapse whitespace and
trim. -/
def getSortName (name : String) : String :=
  trimStr (String.mk (collapseSpaces (removeSymbols (stripArticle name.data))))

/-- Lexicographic code-point comparison on character lists, `true` when the
first list is less or equal. -/
def charListLe : List Char → List Char → Bool
  | [], _ => true
  | _ :: _, [] => false
  | a :: arest, b :: brest =>
    if a = b then charListLe arest brest else decide (a < b)

/-- Model of `aKey.localeCompare(bKey, 'fr', { sensitivity: 'base', numeric:
true }) <= 0` for the ASCII, digit-free names this development evaluates it
on: base sensitivity makes the comparison case-insensitive, and on plain
ASCII letters and spaces the `fr` collation coincides with code-point order
of the lowered strings. -/
def localeCompareLe (a b : String) : Bool :=
  charListLe (toLowerStr a).data (toLowerStr b).data

/-- The `sortVal.startsWith('Z')` test of `sortAndRender` (sort selector
values are "AZ" and "ZA"). -/
def startsWithZ (sortVal : String) : Bool := "Z".data.isPrefixOf sortVal.data

/-- The comparator-and-sort step of `sortAndRender`:
`filtered.sort((a, b) => sortVal.startsWith('Z') ? bKey.localeCompare(aKey, ...)
: aKey.localeCompare(bKey, ...))` with `aKey = getSortName(a.name)` etc.; JS
`Array.prototype.sort` is stable, modelled by insertion sort. The element `a`
precedes `b` exactly when the comparator is nonpositive. -/
def sortGames (sortVal : String) (gs : List Game) : List Game :=
  if startsWithZ sortVal then
    gs.insertionSort
      (fun a b => localeCompareLe (getSortName b.name) (getSortName a.name) = true)
  else
    gs.insertionSort
      (fun a b => localeCompareLe (getSortName a.name) (getSortName b.name) = true)

def witcherGame : Game := { name := "The Witcher", platform := "steam", appid := some "10" }

def quietPlaceGame : Game := { name := "A Quiet Place", platform := "epic", appid := some "11" }

def zeldaGame : Game := { name := "Zelda", platform := "steam", appid := some "12" }

/-! Theorems. -/

/-- Membership in the merged collection is monotone: a duplicate flag that is
set against a collection stays set when the collection grows. -/
theorem isDuplicateById_append_left (s t : List Game) (g : Game)
    (h : isDuplicateById s g = true) : isDuplicateById (s ++ t) g = true := by
  simp only [isDuplicateById, Bool.and_eq_true, List.any_eq_true] at h ⊢
  exact ⟨h.1, h.2.elim fun e he => ⟨e, List.mem_append_left t he.1, he.2⟩⟩

theorem isDuplicateByName_append_left (s t : List Game) (g : Game)
    (h : isDuplicateByName s g = true) : isDuplicateByName (s ++ t) g = true := by
  simp only [isDuplicateByName, List.any_eq_true] at h ⊢
  exact h.elim fun e he => ⟨e, List.mem_append_left t he.1, he.2⟩

/-- Any entry that made it into the collection is a name-duplicate of that
same collection. -/
theorem isDuplicateByName_of_mem (s : List Game) (g : Game)
    (h : g ∈ s) : isDuplicateByName s g = true := by
  simp only [isDuplicateByName, List.any_eq_true]
  exact ⟨g, h, by simp⟩

/-- C1: the claim asserts that a batch containing two copies of the same
not-yet-present record appends only one of them, and that at most one of two
entries with equal non-empty identity survives the merge. On the code this
fails: `appendNewGames` computes its dedup sets once from the live collection
before filtering, so both copies of `fooGame` pass the filter and both are
appended, leaving two entries with equal non-empty identity (and equal
name+platform key) in the collection. -/
theorem c1_batch_internal_duplicates_both_survive :
    appendNewGames [] [fooGame, fooGame] = [fooGame, fooGame] ∧
    (appendNewGames [] [fooGame, fooGame]).length = 2 ∧
    appidTruthy fooGame.appid = true := by decide

/-- C1 (amended): dedup is correct only against the live collection as it
stood when the merge call started: no entry accepted by `appendNewGames`
duplicates (by non-empty identity, or by lowercased-name+platform key) any
entry already in the collection. Batch-internal duplicates of a
not-yet-present record are not caught and are all appended. -/
theorem c1_amended_dedup_against_prior_collection
    (s b : List Game) (g e : Game)
    (hg : g ∈ uniqueGames s b) (he : e ∈ s) :
    (appidTruthy g.appid = true → g.appid ≠ e.appid) ∧ nameKey g ≠ nameKey e := by
  simp only [uniqueGames, List.mem_filter, Bool.and_eq_true, Bool.not_eq_true'] at hg
  obtain ⟨hmem, hid, hname⟩ := hg
  constructor
  · intro htruthy heq
    simp only [isDuplicateById, htruthy, Bool.true_and, List.any_eq_false,
      beq_iff_eq] at hid
    exact hid e he heq.symm
  · intro heq
    simp only [isDuplicateByName, List.any_eq_false, beq_iff_eq] at hname
    exact hname e he heq.symm

theorem c1_amended_dedup_witness :
    (appidTruthy fooGame.appid = true → fooGame.appid ≠ barGame.appid) ∧
    nameKey fooGame ≠ nameKey barGame :=
  c1_amended_dedup_against_prior_collection [barGame] [fooGame] fooGame barGame
    (by decide) (by decide)

/-- C4: merge is idempotent. Re-merging the very same batch appends nothing,
because every batch entry is, after the first merge, either already present
itself (so its name+platform key is found) or was rejected by a dedup flag
that only ever grows as the collection grows; so the collection after two
merges of a batch is identical, elementwise and in order, to the collection
after one. -/
theorem c4_merge_idempotent (s b : List Game) :
    appendNewGames (appendNewGames s b) b = appendNewGames s b := by
  have hnil : uniqueGames (s ++ uniqueGames s b) b = [] := by
    rw [uniqueGames, List.filter_eq_nil_iff]
    intro g hg
    by_cases hpass :
        (!isDuplicateById s g && !isDuplicateByName s g) = true
    · have hB : isDuplicateByName (s ++ uniqueGames s b) g = true := by
        refine isDuplicateByName_of_mem _ g (List.mem_append_right s ?_)
        rw [uniqueGames]
        exact List.mem_filter.mpr ⟨hg, hpass⟩
      simp [hB]
    · have hor : isDuplicateById s g = true ∨ isDuplicateByName s g = true := by
        cases hid : isDuplicateById s g with
        | true => exact Or.inl rfl
        | false =>
          cases hn : isDuplicateByName s g with
          | true => exact Or.inr rfl
          | false => exact absurd (by simp [hid, hn]) hpass
      rcases hor with h | h
      · simp [isDuplicateById_append_left s _ g h]
      · simp [isDuplicateByName_append_left s _ g h]
  show (s ++ uniqueGames s b) ++ uniqueGames (s ++ uniqueGames s b) b =
    s ++ uniqueGames s b
  rw [hnil, List.append_nil]

/-- C6: the claim asserts that for a progress unit with a non-empty batch the
supervisor both merges the batch and requests asynchronous image-cache warm-up
for the newly accepted entries. On the code the merge happens but no image
fetch is ever issued during scan handling: with one newly accepted entry the
warm-up request list is empty, not a singleton. -/
theorem c6_no_warmup_during_scan :
    (handleProgressUnit [] fooUnit).newAllGames = [fooGame] ∧
    (handleProgressUnit [] fooUnit).warmupRequests = [] := by decide

/-- C6 (amended): for every progress unit with a non-empty batch the handler
hands the batch to `appendNewGames`, and issues no image-cache warm-up fetch
at all during the scan — cover images are resolved only at render time. -/
theorem c6_amended_merge_without_warmup (s : List Game) (u : ProgressUnit)
    (h : u.games ≠ []) :
    (handleProgressUnit s u).newAllGames = appendNewGames s u.games ∧
    (handleProgressUnit s u).warmupRequests = [] := by
  have hlen : u.games.length > 0 := List.length_pos.mpr h
  simp [handleProgressUnit, hlen]

theorem c6_amended_merge_without_warmup_witness :
    (handleProgressUnit [] fooUnit).newAllGames = appendNewGames [] fooUnit.games ∧
    (handleProgressUnit [] fooUnit).warmupRequests = [] :=
  c6_amended_merge_without_warmup [] fooUnit (by decide)

theorem cexFile_name_inj {i j : Nat} (h : (cexFile i).name = (cexFile j).name) :
    i = j := by
  have hdata : List.replicate i 'a' = List.replicate j 'a' := by
    simpa [cexFile] using congrArg String.data h
  simpa using congrArg List.length hdata

theorem sortByMtime_cexDir (n : Nat) : sortByMtime (cexDir n) = cexDir n := by
  apply List.Sorted.insertionSort_eq
  unfold cexDir List.Sorted
  rw [List.pairwise_map]
  exact (List.pairwise_lt_range n).imp fun h => Nat.le_of_lt h

theorem cexDir_take (m n : Nat) (h : m ≤ n) : (cexDir n).take m = cexDir m := by
  unfold cexDir
  rw [← List.map_take, List.take_range, Nat.min_eq_left h]

theorem any_cexDir_name (i m : Nat) :
    ((cexDir m).any fun d => d.name == (cexFile i).name) = decide (i < m) := by
  by_cases h : i < m
  · rw [decide_eq_true h, List.any_eq_true]
    exact ⟨cexFile i, List.mem_map.mpr ⟨i, List.mem_range.mpr h, rfl⟩, by simp⟩
  · rw [decide_eq_false h, List.any_eq_false]
    intro d hd hcontra
    obtain ⟨j, hj, rfl⟩ := List.mem_map.mp hd
    exact h (cexFile_name_inj (by simpa using hcontra) ▸ List.mem_range.mp hj)

theorem countPass_cexDir_1300 :
    countPass (cexDir 1300) = ((List.range 1100).map (200 + ·)).map cexFile := by
  have h1300 : (cexDir 1300).length = 1300 := by simp [cexDir]
  rw [countPass, if_pos (by rw [h1300]; norm_num [MAX_FILES])]
  rw [sortByMtime_cexDir, cexDir_take 200 1300 (by norm_num)]
  have hsplit : cexDir 1300 = ((List.range 1300).map cexFile) := rfl
  rw [hsplit, List.filter_map]
  have hpred : (List.range 1300).filter
        ((fun f => !((cexDir 200).any fun d => d.name == f.name)) ∘ cexFile)
      = (List.range 1300).filter (fun i => !decide (i < 200)) :=
    List.filter_congr (fun i _ => by
      show (!((cexDir 200).any fun d => d.name == (cexFile i).name)) = !decide (i < 200)
      rw [any_cexDir_name i 200])
  rw [hpred]
  have hr : List.range 1300 = List.range 200 ++ (List.range 1100).map (200 + ·) := by
    rw [show (1300 : Nat) = 200 + 1100 from rfl, List.range_add]
  rw [hr, List.filter_append]
  rw [List.filter_eq_nil_iff.mpr
    (fun i hi => by simp [List.mem_range.mp hi])]
  rw [List.filter_eq_self.mpr
    (fun a ha => by
      obtain ⟨j, hj, rfl⟩ := List.mem_map.mp ha
      simp)]
  simp

theorem totalSize_map_cexFile (l : List Nat) : totalSize (l.map cexFile) = l.length := by
  unfold totalSize
  rw [List.map_map]
  have hconst : CFile.size ∘ cexFile = fun _ => 1 := rfl
  rw [hconst]
  simp

/-- C2: the claim asserts that after `sweep()` (here `cleanupCache`) the file
count is at most the fixed ceiling, the count pass deleting oldest files down
to (ceiling − 200) remaining. On the code this fails: the count pass deletes
exactly the 200 oldest files whatever the excess, so a directory of 1300
one-byte files is left with 1100 files — still above the 1000-file ceiling. -/
theorem c2_count_ceiling_violated :
    (cleanupCache (cexDir 1300)).length = 1100 ∧
    MAX_FILES < (cleanupCache (cexDir 1300)).length := by
  have hts : totalSize (countPass (cexDir 1300)) = 1100 := by
    rw [countPass_cexDir_1300, totalSize_map_cexFile]
    simp
  have hclean : cleanupCache (cexDir 1300) = countPass (cexDir 1300) := by
    rw [cleanupCache, hts, if_neg (by norm_num [MAX_CACHE_BYTES])]
  rw [hclean, countPass_cexDir_1300]
  refine ⟨by simp, ?_⟩
  simp [MAX_FILES]

/-- The byte-budget pass bound on an already-sorted listing with distinct
names: filtering out the names collected by `byteLoop`, started from the
listing's own total size, brings the total size within the 80% target. -/
theorem byteLoop_totalSize_le :
    ∀ (l : List CFile), (l.map CFile.name).Nodup →
      totalSize (l.filter (fun f => !((byteLoop l (totalSize l)).contains f.name)))
        ≤ TARGET_CACHE_BYTES := by
  intro l
  induction l with
  | nil => intro _; simp [totalSize, byteLoop]
  | cons f rest ih =>
    intro hnodup
    by_cases h : totalSize (f :: rest) ≤ TARGET_CACHE_BYTES
    · have hloop : byteLoop (f :: rest) (totalSize (f :: rest)) = [] := by
        rw [byteLoop, if_pos h]
      rw [hloop]
      have hall : (f :: rest).filter (fun g => !(List.contains [] g.name)) = f :: rest :=
        List.filter_eq_self.mpr (fun a _ => by simp [List.contains])
      rw [hall]
      exact h
    · have hloop : byteLoop (f :: rest) (totalSize (f :: rest))
          = f.name :: byteLoop rest (totalSize (f :: rest) - f.size) := by
        rw [byteLoop, if_neg h]
      have hsub : totalSize (f :: rest) - f.size = totalSize rest := by
        simp [totalSize]
      rw [hloop, hsub]
      have hfnotin : f.name ∉ rest.map CFile.name := by
        have := hnodup
        rw [List.map_cons, List.nodup_cons] at this
        exact this.1
      have hfilter : (f :: rest).filter
            (fun g => !((f.name :: byteLoop rest (totalSize rest)).contains g.name))
          = rest.filter (fun g => !((byteLoop rest (totalSize rest)).contains g.name)) := by
        rw [List.filter_cons]
        rw [if_neg (by simp)]
        apply List.filter_congr
        intro g hg
        have hne : g.name ≠ f.name := by
          intro hcontra
          exact hfnotin (hcontra ▸ List.mem_map_of_mem CFile.name hg)
        simp [List.contains_cons, hne]
      rw [hfilter]
      exact ih (by
        have := hnodup
        rw [List.map_cons, List.nodup_cons] at this
        exact this.2)

/-- Total size is invariant under permutation of the listing. -/
theorem totalSize_perm {l₁ l₂ : List CFile} (h : l₁.Perm l₂) :
    totalSize l₁ = totalSize l₂ :=
  (h.map CFile.size).sum_eq

/-- C2 (amended): the count pass deletes exactly the 200 oldest files when
the ceiling is exceeded (leaving count − 200 files, possibly still above the
ceiling, as the counterexample shows); and when the sweep is triggered by the
byte budget alone — the listing is within the file-count ceiling and its
names are distinct, as in a real directory — the total size after the sweep
is at most 80% of the byte ceiling. -/
theorem c2_amended_byte_budget (files : List CFile)
    (hcount : files.length ≤ MAX_FILES)
    (hnodup : (files.map CFile.name).Nodup)
    (hover : totalSize files > MAX_CACHE_BYTES) :
    totalSize (cleanupCache files) ≤ TARGET_CACHE_BYTES := by
  have hnogt : ¬ files.length > MAX_FILES := by omega
  have hcp : countPass files = files := by rw [countPass, if_neg hnogt]
  have hclean : cleanupCache files = files.filter
      (fun f => !((byteLoop (sortByMtime files) (totalSize files)).contains f.name)) := by
    rw [cleanupCache, hcp, if_pos hover, if_neg hnogt]
  rw [hclean]
  have hperm : (sortByMtime files).Perm files := List.perm_insertionSort _ files
  have hnodup' : ((sortByMtime files).map CFile.name).Nodup :=
    (List.Perm.nodup_iff (hperm.map CFile.name)).mpr hnodup
  have hts : totalSize files = totalSize (sortByMtime files) :=
    (totalSize_perm hperm).symm
  have hfperm : (files.filter
        (fun f => !((byteLoop (sortByMtime files) (totalSize files)).contains f.name))).Perm
      ((sortByMtime files).filter
        (fun f => !((byteLoop (sortByMtime files) (totalSize files)).contains f.name))) :=
    hperm.symm.filter _
  rw [totalSize_perm hfperm, hts]
  exact byteLoop_totalSize_le (sortByMtime files) hnodup'

theorem c2_amended_byte_budget_witness :
    totalSize (cleanupCache [⟨"grid.jpg", 0, 600 * 1024 * 1024⟩]) ≤ TARGET_CACHE_BYTES :=
  c2_amended_byte_budget [⟨"grid.jpg", 0, 600 * 1024 * 1024⟩] (by decide) (by decide)
    (by decide)

/-- C3: the claim asserts a single 180-second timer for the whole fallback
chain, not re-armed per candidate, with no timer of a failed previous
candidate left active. On the code this fails: `setupProcessHandlers` runs
once per candidate and arms a fresh timer each time, overwriting `scanTimer`
without clearing the previous timer; after the first candidate fails and the
second is set up, two 180000 ms timers are active, the first candidate's
timer (id 0) among them, and a terminal `endScan` clears only the second
candidate's timer, leaving the first one armed. -/
theorem c3_per_candidate_timers_leak :
    (armScanTimeout (armScanTimeout timers0)).active =
      [(1, 180000), (0, 180000)] ∧
    (0, 180000) ∈ (armScanTimeout (armScanTimeout timers0)).active ∧
    (endScanTimers (armScanTimeout (armScanTimeout timers0))).active =
      [(0, 180000)] := by decide

/-- C3 (amended): each candidate attempt arms its own fresh 180000 ms timer
and overwrites `scanTimer` with it, leaving every previously armed timer
active; a terminal transition's `endScan` clears only the most recently armed
timer, so when the ids held in `active` are older than the fresh id (as in
every reachable state), all previously armed timers survive the terminal
transition. -/
theorem c3_amended_fresh_timer_per_candidate (s : TimerState)
    (hfresh : ∀ p ∈ s.active, p.1 < s.nextId) :
    (armScanTimeout s).active = (s.nextId, 180000) :: s.active ∧
    (endScanTimers (armScanTimeout s)).active = s.active := by
  refine ⟨rfl, ?_⟩
  show ((s.nextId, 180000) :: s.active).filter (fun p => p.1 ≠ s.nextId) = s.active
  rw [List.filter_cons, if_neg (by simp)]
  exact List.filter_eq_self.mpr fun p hp => by
    simpa using Nat.ne_of_lt (hfresh p hp)

theorem c3_amended_fresh_timer_witness :
    (armScanTimeout (armScanTimeout timers0)).active =
      ((armScanTimeout timers0).nextId, 180000) :: (armScanTimeout timers0).active ∧
    (endScanTimers (armScanTimeout (armScanTimeout timers0))).active =
      (armScanTimeout timers0).active :=
  c3_amended_fresh_timer_per_candidate (armScanTimeout timers0) (by decide)

/-- The retry loop only ever returns the cache path or the placeholder. -/
theorem fetchImageWithRetry_ok_cases (oracle : Nat → AttemptOutcome)
    (localPath : String) :
    ∀ remaining attempt r,
      fetchImageWithRetry oracle localPath attempt remaining = .ok r →
      r = .cachedPath localPath ∨ r = .placeholder := by
  intro remaining
  induction remaining with
  | zero =>
    intro attempt r h
    rw [fetchImageWithRetry] at h
    cases horacle : oracle attempt <;> rw [horacle] at h
    · exact Or.inl (by simpa using h.symm)
    · exact Or.inr (by simpa using h.symm)
    · simp at h
  | succ n ih =>
    intro attempt r h
    rw [fetchImageWithRetry] at h
    cases horacle : oracle attempt <;> rw [horacle] at h
    · exact Or.inl (by simpa using h.symm)
    · exact Or.inr (by simpa using h.symm)
    · exact ih (attempt + 1) r h

/-- Every result of `runFetch` is the cache path or the placeholder. -/
theorem runFetch_result (timeoutWins : Bool) (oracle : Nat → AttemptOutcome)
    (localPath : String) (deleted : Bool) :
    (runFetch timeoutWins oracle localPath deleted).result = .cachedPath localPath ∨
    (runFetch timeoutWins oracle localPath deleted).result = .placeholder := by
  rw [runFetch]
  by_cases ht : timeoutWins
  · rw [if_pos ht]; exact Or.inr rfl
  · rw [if_neg ht]
    cases hres : fetchImageWithRetry oracle localPath 0 2 with
    | ok r =>
      simpa using fetchImageWithRetry_ok_cases oracle localPath 2 0 r hres
    | error e => exact Or.inr rfl

/-- C5: `fetchGameImage` never fails outward. For every cache state, stat
behaviour, timeout behaviour and network behaviour, it returns either the
fixed placeholder or the entry's deterministic cache file path — it is a
total function into these two values, with no escaping exception — and
whenever the fetch phase runs and the operation timeout fires first, the
returned value is the placeholder. -/
theorem c5_resolve_never_fails (cache : List (String × Nat))
    (statThrows timeoutWins : Bool) (oracle : Nat → AttemptOutcome) (g : Game) :
    ((fetchGameImage cache statThrows timeoutWins oracle g).result =
        .cachedPath (fileName g) ∨
      (fetchGameImage cache statThrows timeoutWins oracle g).result =
        .placeholder) ∧
    (timeoutWins = true →
      (fetchGameImage cache statThrows timeoutWins oracle g).fetchAttempted = true →
      (fetchGameImage cache statThrows timeoutWins oracle g).result = .placeholder) := by
  cases hsize : lookupSize cache (fileName g) with
  | some size =>
    by_cases hst : statThrows = true
    · have heq : fetchGameImage cache statThrows timeoutWins oracle g
          = runFetch timeoutWins oracle (fileName g) true := by
        simp [fetchGameImage, hsize, hst]
      rw [heq]
      exact ⟨runFetch_result _ _ _ _, fun htw _ => by rw [runFetch, if_pos htw]⟩
    · by_cases hbig : size > 1024
      · have heq : fetchGameImage cache statThrows timeoutWins oracle g
            = { result := .cachedPath (fileName g), deletedCached := false,
                touched := true, fetchAttempted := false } := by
          simp [fetchGameImage, hsize, hst, hbig]
        rw [heq]
        exact ⟨Or.inl rfl, fun _ hfa => by simp at hfa⟩
      · have heq : fetchGameImage cache statThrows timeoutWins oracle g
            = runFetch timeoutWins oracle (fileName g) true := by
          simp [fetchGameImage, hsize, hst, hbig]
        rw [heq]
        exact ⟨runFetch_result _ _ _ _, fun htw _ => by rw [runFetch, if_pos htw]⟩
  | none =>
    have heq : fetchGameImage cache statThrows timeoutWins oracle g
        = runFetch timeoutWins oracle (fileName g) false := by
      simp [fetchGameImage, hsize]
    rw [heq]
    exact ⟨runFetch_result _ _ _ _, fun htw _ => by rw [runFetch, if_pos htw]⟩

theorem c5_resolve_never_fails_witness :
    (fetchGameImage [] false true (fun _ => AttemptOutcome.err) fooGame).result =
      ImgResult.placeholder :=
  (c5_resolve_never_fails [] false true (fun _ => AttemptOutcome.err) fooGame).2
    rfl (by decide)

/-- The fetch phase records the deletion flag it was given and always marks a
fetch attempt. -/
theorem runFetch_flags (timeoutWins : Bool) (oracle : Nat → AttemptOutcome)
    (localPath : String) (deleted : Bool) :
    (runFetch timeoutWins oracle localPath deleted).deletedCached = deleted ∧
    (runFetch timeoutWins oracle localPath deleted).fetchAttempted = true := by
  rw [runFetch]
  by_cases htw : timeoutWins = true
  · rw [if_pos htw]; exact ⟨rfl, rfl⟩
  · rw [if_neg htw]
    cases fetchImageWithRetry oracle localPath 0 2 <;> exact ⟨rfl, rfl⟩

/-- C7: cache self-healing. When the cache file for an entry exists with size
at most the 1024-byte viability threshold, `fetchGameImage` deletes it and
proceeds to a fresh fetch attempt (returning the placeholder if the fetch
times out), never returning the undersized file; when the cache file's size
exceeds the threshold, the file's timestamps are bumped (`utimesSync`) and
its path returned with no fetch. -/
theorem c7_undersized_cache_selfheal (cache : List (String × Nat))
    (timeoutWins : Bool) (oracle : Nat → AttemptOutcome) (g : Game) (size : Nat) :
    (lookupSize cache (fileName g) = some size ∧ size ≤ 1024 →
      (fetchGameImage cache false timeoutWins oracle g).deletedCached = true ∧
      (fetchGameImage cache false timeoutWins oracle g).fetchAttempted = true ∧
      (timeoutWins = true →
        (fetchGameImage cache false timeoutWins oracle g).result = .placeholder)) ∧
    (lookupSize cache (fileName g) = some size ∧ size > 1024 →
      (fetchGameImage cache false timeoutWins oracle g).touched = true ∧
      (fetchGameImage cache false timeoutWins oracle g).result =
        .cachedPath (fileName g) ∧
      (fetchGameImage cache false timeoutWins oracle g).fetchAttempted = false) := by
  constructor
  · rintro ⟨hsize, hsmall⟩
    have heq : fetchGameImage cache false timeoutWins oracle g
        = runFetch timeoutWins oracle (fileName g) true := by
      simp [fetchGameImage, hsize, Nat.not_lt.mpr hsmall]
    rw [heq]
    exact ⟨(runFetch_flags _ _ _ _).1, (runFetch_flags _ _ _ _).2,
      fun htw => by rw [runFetch, if_pos htw]⟩
  · rintro ⟨hsize, hbig⟩
    have heq : fetchGameImage cache false timeoutWins oracle g
        = { result := .cachedPath (fileName g), deletedCached := false,
            touched := true, fetchAttempted := false } := by
      simp [fetchGameImage, hsize, hbig]
    rw [heq]
    exact ⟨rfl, rfl, rfl⟩

theorem c7_undersized_cache_selfheal_witness :
    ((fetchGameImage [("steam_1.jpg", 100)] false true
        (fun _ => AttemptOutcome.err) fooGame).deletedCached = true ∧
      (fetchGameImage [("steam_1.jpg", 100)] false true
        (fun _ => AttemptOutcome.err) fooGame).fetchAttempted = true ∧
      (true = true →
        (fetchGameImage [("steam_1.jpg", 100)] false true
          (fun _ => AttemptOutcome.err) fooGame).result = ImgResult.placeholder)) ∧
    ((fetchGameImage [("steam_1.jpg", 4096)] false true
        (fun _ => AttemptOutcome.err) fooGame).touched = true ∧
      (fetchGameImage [("steam_1.jpg", 4096)] false true
        (fun _ => AttemptOutcome.err) fooGame).result =
        ImgResult.cachedPath (fileName fooGame) ∧
      (fetchGameImage [("steam_1.jpg", 4096)] false true
        (fun _ => AttemptOutcome.err) fooGame).fetchAttempted = false) :=
  ⟨(c7_undersized_cache_selfheal [("steam_1.jpg", 100)] true
      (fun _ => AttemptOutcome.err) fooGame 100).1 ⟨by decide, by decide⟩,
    (c7_undersized_cache_selfheal [("steam_1.jpg", 4096)] true
      (fun _ => AttemptOutcome.err) fooGame 4096).2 ⟨by decide, by decide⟩⟩

/-- C10 (implicit): the cache key does not distinguish entries lacking an
identity. Two distinct entries on the same platform with no `appid` both get
the cache file name `<platform>_undefined.jpg` (JS interpolation of
`undefined`), so once a cover above the viability threshold is cached under
that name, `fetchGameImage` returns that same cached image path for both
entries. -/
theorem c10_shared_undefined_cache_key (g1 g2 : Game) (cache : List (String × Nat))
    (size : Nat) (timeoutWins : Bool) (oracle : Nat → AttemptOutcome)
    (hplat : g1.platform = g2.platform) (h1 : g1.appid = none) (h2 : g2.appid = none)
    (hsize : lookupSize cache (fileName g1) = some size) (hbig : size > 1024) :
    fileName g1 = g1.platform ++ "_undefined.jpg" ∧
    fileName g1 = fileName g2 ∧
    (fetchGameImage cache false timeoutWins oracle g1).result =
      .cachedPath (fileName g1) ∧
    (fetchGameImage cache false timeoutWins oracle g2).result =
      .cachedPath (fileName g1) := by
  have hfn : fileName g1 = fileName g2 := by
    simp [fileName, hplat, h1, h2]
  have hfn1 : fileName g1 = g1.platform ++ "_undefined.jpg" := by
    rw [fileName, h1]
    rw [String.append_assoc, String.append_assoc]
    congr 1
  have hr1 : (fetchGameImage cache false timeoutWins oracle g1).result =
      .cachedPath (fileName g1) := by
    have heq : fetchGameImage cache false timeoutWins oracle g1
        = { result := .cachedPath (fileName g1), deletedCached := false,
            touched := true, fetchAttempted := false } := by
      simp [fetchGameImage, hsize, hbig]
    rw [heq]
  have hr2 : (fetchGameImage cache false timeoutWins oracle g2).result =
      .cachedPath (fileName g1) := by
    have heq : fetchGameImage cache false timeoutWins oracle g2
        = { result := .cachedPath (fileName g2), deletedCached := false,
            touched := true, fetchAttempted := false } := by
      simp [fetchGameImage, ← hfn, hsize, hbig]
    rw [heq, hfn]
  exact ⟨hfn1, hfn, hr1, hr2⟩

theorem c10_shared_undefined_cache_key_witness :
    fileName fooNoId = fooNoId.platform ++ "_undefined.jpg" ∧
    fileName fooNoId = fileName barNoId ∧
    (fetchGameImage [("steam_undefined.jpg", 4096)] false false
      (fun _ => AttemptOutcome.err) fooNoId).result =
      ImgResult.cachedPath (fileName fooNoId) ∧
    (fetchGameImage [("steam_undefined.jpg", 4096)] false false
      (fun _ => AttemptOutcome.err) barNoId).result =
      ImgResult.cachedPath (fileName fooNoId) :=
  c10_shared_undefined_cache_key fooNoId barNoId [("steam_undefined.jpg", 4096)]
    4096 false (fun _ => AttemptOutcome.err) rfl rfl rfl (by decide) (by decide)

/-- C8: the claim asserts that a launch request made while a session is
launching or running is rejected with `AlreadyRunning` and leaves the session
state and catalog unchanged. On the code there is no such rejection: the
refresh handler performs no `isScanning` check, and invoking it while a
session is active empties the catalog (and starts a new scan) rather than
leaving the state unchanged; the only guard is the disabled button. -/
theorem c8_handler_has_no_already_running_guard :
    refreshOnClickHandler busyUIState ≠ busyUIState ∧
    (refreshOnClickHandler busyUIState).allGames = [] ∧
    busyUIState.allGames = [fooGame] := by decide

/-- C8 (amended): at most one scan session is active at a time only by
virtue of the disabled refresh button: `setScanningUI(true)` disables the
button, and a click on a disabled button is a no-op that leaves the whole
state (session flags and catalog) unchanged. No `AlreadyRunning` error is
produced, and a direct handler invocation while scanning clears the
catalog. -/
theorem c8_amended_disabled_button_guard (s : UIState)
    (hdis : s.refreshDisabled = true) :
    clickRefreshButton s = s ∧
    (setScanningUI s true).refreshDisabled = true ∧
    (refreshOnClickHandler s).allGames = [] := by
  refine ⟨?_, rfl, rfl⟩
  rw [clickRefreshButton, if_pos hdis]

theorem c8_amended_disabled_button_guard_witness :
    clickRefreshButton busyUIState = busyUIState ∧
    (setScanningUI busyUIState true).refreshDisabled = true ∧
    (refreshOnClickHandler busyUIState).allGames = [] :=
  c8_amended_disabled_button_guard busyUIState (by decide)

/-- C9: the render comparator is article-stripped and symbol-stripped: on the
names "The Witcher", "A Quiet Place", "Zelda", ascending sort yields
Quiet Place, Witcher, Zelda and descending sort yields Zelda, Witcher, Quiet
Place. -/
theorem c9_article_stripped_sort_scenario :
    sortGames "AZ" [witcherGame, quietPlaceGame, zeldaGame] =
      [quietPlaceGame, witcherGame, zeldaGame] ∧
    sortGames "ZA" [witcherGame, quietPlaceGame, zeldaGame] =
      [zeldaGame, witcherGame, quietPlaceGame] := by decide

end GameHubz

